import Mathlib

/-!
# Formal model of `src/export.py` (Stockholm high-school export pipeline)

This file is a shallow embedding of the export pipeline in `src/export.py`.
Python dictionaries coming from JSON responses are modelled as structures with
`Option` fields (`.get(k)` returning `None` becomes a `none` field, `.get(k, d)`
becomes `Option.getD`).  A raised-and-propagating exception of an HTTP helper is
modelled as a `none` response in the environment; a `try/except` that absorbs it
is modelled by the function mapping that `none` to an absent result.

Python truthiness conventions used by the source are modelled as follows:
* a string is falsy iff it is empty (`location ≠ ""`, `if s = "" then ...`);
* an integer is falsy iff it is zero (`school_limit`);
* a list is falsy iff it is empty (`study_paths`, `trips`, `locations`);
* a dict is falsy iff it is empty.  Every place the code consumes a possibly
  empty stop dict or program-page dict immediately guards with a truthiness
  check, so an absent-or-empty dict is uniformly modelled as `none` and a
  present non-empty dict as `some`.

External calls are deterministic oracles recorded in an `Env` structure; the
orchestrator additionally records an event trace so that call-count invariants
(memoization, phase ordering) can be stated.
-/

/-- A transit stop as returned by ResRobot (`StopLocation` JSON object). -/
structure Stop where
  name : Option String
  extId : Option String
deriving DecidableEq, Repr

/-- A school summary record from the Ednia listing.  Every field of the JSON
object that the orchestrator reads is modelled; `none` means the key is absent
from the record. -/
structure SchoolRec where
  id : Option String
  name : Option String
  location : Option String
  municipality : Option String
  programs : Option (List String)
deriving DecidableEq, Repr

/-- `educationStats` sub-object of a program page. -/
structure EducationStats where
  averageGrade : Option Rat
  flowthroughRate : Option Rat
deriving DecidableEq, Repr

/-- One study path of a program page. -/
structure StudyPath where
  name : Option String
  compareNumber : Option Rat
  min : Option Rat
  median : Option Rat
  admitted : Option Rat
deriving DecidableEq, Repr

/-- A program page (`programPage` payload of the Ednia response). -/
structure ProgramPage where
  educationStats : Option EducationStats
  female_ratio : Option Rat
  studyPaths : Option (List StudyPath)
deriving DecidableEq, Repr

/-- One itinerary of a ResRobot trip response. -/
structure Trip where
  duration : Option String
deriving DecidableEq, Repr

/-- One flattened CSV output row, with the exact fields written by phase 4. -/
structure Row where
  school_name : String
  school_location : String
  program : String
  averageGrade : Option Rat
  flowthroughRate : Option Rat
  female_ratio : Option Rat
  studyPath_name : String
  compareNumber : Option Rat
  min : Option Rat
  median : Option Rat
  admitted : Option Rat
  travel_time_minutes : Option Nat
deriving DecidableEq, Repr

/-- The relevant part of the `Config` dataclass. -/
structure Config where
  resrobot_api_key : String
  origin_name : String
  output_file : String
  school_limit : Option Int
deriving DecidableEq, Repr

/-- Responses of the external services for one run.  An outer `none` models an
HTTP request that raises an exception (network error, timeout, non-success
status, malformed body).
* `lookupResp q`: the `stopLocationOrCoordLocation` list for query `q`; each
  entry is `some stop` when the entry carries a (non-empty) `StopLocation`
  object, `none` when it does not (e.g. a `CoordLocation` entry).
* `tripResp o d`: the `Trip` list for origin/destination identifiers.
* `schoolsResp`: the `result` list of the recommend endpoint.
* `pageResp sid code muni`: outer `none` = request raised; inner value is the
  `programPage` payload (`none` when the key is absent or the payload falsy).
-/
structure Env where
  lookupResp : String → Option (List (Option Stop))
  tripResp : Option String → Option String → Option (List Trip)
  schoolsResp : Option (List SchoolRec)
  pageResp : String → String → String → Option (Option ProgramPage)

/-! ## `parse_duration` -/

/-- Numeric value of a digit string, as computed by Python `int`. -/
def digitsVal (l : List Char) : Nat :=
  l.foldl (fun a c => a * 10 + (c.toNat - 48)) 0

/-- Longest digit prefix of a character list, with the remainder
(the behaviour of a greedy `\d+`). -/
def takeDigits : List Char → List Char × List Char
  | [] => ([], [])
  | c :: rest =>
    if c.isDigit then
      let p := takeDigits rest
      (c :: p.1, p.2)
    else ([], c :: rest)

/-- One optional regex group `(?:(\d+)X)?` matched at the head of `l`:
if a non-empty digit run immediately followed by `suffix` is present, consume
it and return its value, otherwise consume nothing. -/
def tryNumGroup (l : List Char) (suffix : Char) : Option Nat × List Char :=
  match takeDigits l with
  | ([], _) => (none, l)
  | (d, c :: r2) => if c = suffix then (some (digitsVal d), r2) else (none, l)
  | (_, []) => (none, l)

/-- Core of `parse_duration`: Python's `re.match(r"PT(?:(\d+)H)?(?:(\d+)M)?", s)`
matches a prefix of `s`; any trailing characters are ignored. -/
def parseCore : List Char → Option Nat
  | 'P' :: 'T' :: rest =>
    let hg := tryNumGroup rest 'H'
    let mg := tryNumGroup hg.2 'M'
    some ((hg.1.getD 0) * 60 + (mg.1.getD 0))
  | _ => none

/-- `parse_duration` from `src/export.py`: ISO-8601-style duration to minutes. -/
def parse_duration (duration : String) : Option Nat :=
  if duration = "" then none
  else parseCore duration.data

/-! ## `RateLimiter` (the `_rate_limit` methods of both clients) -/

namespace RateLimiter

/-- One `_rate_limit()` invocation: given the configured `delay`, the stored
`last_request` timestamp and the current time `now`, return the time at which
the call is permitted (which is also stored as the new `last_request`).
`elapsed = now - last`; if `elapsed < delay` the flow sleeps `delay - elapsed`
seconds, so the call proceeds at `now + (delay - elapsed)`. -/
def rate_limit (delay last now : Rat) : Rat :=
  if now - last < delay then now + (delay - (now - last)) else now

/-- The stored `last_request` value after `n` calls, for a call-time sequence
`t`; `last_request` starts at `0` (the constructor sets `self.last_request = 0`,
i.e. the Unix epoch). -/
def lastTimes (delay : Rat) (t : Nat → Rat) : Nat → Rat
  | 0 => 0
  | n + 1 => rate_limit delay (lastTimes delay t n) (t n)

/-- The time at which the `n`-th call (0-based) is actually permitted. -/
def permitted (delay : Rat) (t : Nat → Rat) (n : Nat) : Rat :=
  lastTimes delay t (n + 1)

end RateLimiter

/-! ## `ResRobotClient` -/

/-- Python `s.lower()` (ASCII case folding, which is all the literal
`"stockholm"` comparison can observe). -/
def pyLower (s : String) : String :=
  String.mk (s.data.map Char.toLower)

/-- Python `needle in hay` substring test. -/
def containsStr (needle hay : String) : Bool :=
  hay.data.tails.any (fun t => needle.data.isPrefixOf t)

/-- Name of a location entry: `loc.get("StopLocation", {}).get("name", "")`. -/
def entryName (e : Option Stop) : String :=
  match e with
  | some s => s.name.getD ""
  | none => ""

/-- The selection predicate of the preference loop in `lookup_stop`:
`"Stockholm" in name or "stockholm" in name.lower()`. -/
def isStockholmEntry (e : Option Stop) : Bool :=
  containsStr "Stockholm" (entryName e) || containsStr "stockholm" (pyLower (entryName e))

namespace ResRobotClient

/-- `ResRobotClient.lookup_stop`: search for a stop by name.  A raised request
(`env.lookupResp query = none`) is caught and absorbed to `none`.  Otherwise the
first entry whose stop name contains "Stockholm" (any casing) is returned; if
none matches, the `StopLocation` payload of the first entry (which may be
absent); `none` when the list is empty. -/
def lookup_stop (env : Env) (query : String) : Option Stop :=
  match env.lookupResp query with
  | none => none
  | some locations =>
    match locations.find? isStockholmEntry with
    | some loc => loc
    | none =>
      match locations with
      | [] => none
      | loc :: _ => loc

/-- `ResRobotClient.get_travel_time`: minutes between two stops; the duration of
the first itinerary through `parse_duration`.  A raised request is absorbed. -/
def get_travel_time (env : Env) (origin_id dest_id : Option String) : Option Nat :=
  match env.tripResp origin_id dest_id with
  | none => none
  | some trips =>
    match trips with
    | [] => none
    | t :: _ =>
      match t.duration with
      | none => none
      | some d => parse_duration d

end ResRobotClient

/-! ## `EdniaClient` -/

/-- Pipeline-terminating outcomes. -/
inductive PipeError where
  /-- `sys.exit(1)` after the origin stop could not be resolved. -/
  | exitOne : PipeError
  /-- An uncaught exception raised by the school-listing request
  (`get_schools` has no `try/except`). -/
  | uncaught : PipeError
  /-- An uncaught `KeyError` for the named key in phase 3. -/
  | keyError : String → PipeError
deriving DecidableEq, Repr

namespace EdniaClient

/-- `EdniaClient.get_schools`: one POST to the recommend endpoint; the body of
the method has no exception handler, so a raised request propagates. -/
def get_schools (env : Env) : Except PipeError (List SchoolRec) :=
  match env.schoolsResp with
  | none => Except.error PipeError.uncaught
  | some l => Except.ok l

/-- `EdniaClient.get_program_page`: a raised request is caught and absorbed to
`none`; otherwise the `programPage` payload of the response is returned. -/
def get_program_page (env : Env) (school_id program_code municipality : String) :
    Option ProgramPage :=
  match env.pageResp school_id program_code municipality with
  | none => none
  | some p => p

end EdniaClient

/-! ## `find_school_stop` -/

/-- `find_school_stop` from `src/export.py`, instrumented with the list of
queries it issues (in order).  Strategy 1: the school name; strategy 2: the
school name + " Stockholm"; strategy 3 (only when `location` is truthy, i.e.
non-empty): the location + " Stockholm". -/
def find_school_stop (lookup : String → Option Stop) (school_name location : String) :
    Option Stop × List String :=
  match lookup school_name with
  | some stop => (some stop, [school_name])
  | none =>
    match lookup (school_name ++ " Stockholm") with
    | some stop => (some stop, [school_name, school_name ++ " Stockholm"])
    | none =>
      if location ≠ "" then
        (lookup (location ++ " Stockholm"),
          [school_name, school_name ++ " Stockholm", location ++ " Stockholm"])
      else
        (none, [school_name, school_name ++ " Stockholm"])

/-! ## `export_schools` (the orchestrator) -/

/-- External-call events of a run, recorded in order. -/
inductive Event where
  /-- The phase-1 origin lookup. -/
  | originLookup : Event
  /-- The phase-2 school-listing request. -/
  | fetchSchools : Event
  /-- A `find_school_stop` stop-resolution attempt for the given school id. -/
  | resolve : String → Event
  /-- A `get_travel_time` call for the given school id. -/
  | travel : String → Event
  /-- A `get_program_page` call for the given school id and program code. -/
  | page : String → String → Event
deriving DecidableEq, Repr

/-- Number of occurrences of an event in a trace. -/
def countEv (ev : Event) (l : List Event) : Nat :=
  (l.filter (fun e => decide (e = ev))).length

/-- Mutable state of the phase-3 loop: the travel-time cache (a Python dict,
modelled as an association list searched front-first), the accumulated rows and
the event trace. -/
structure LoopState where
  cache : List (String × Option Nat)
  rows : List Row
  trace : List Event
deriving DecidableEq, Repr

/-- Dict lookup: `some v` when the key is present (`k in d` / `d[k]`). -/
def cacheLookup (k : String) : List (String × Option Nat) → Option (Option Nat)
  | [] => none
  | (k2, v) :: rest => if k2 = k then some v else cacheLookup k rest

/-- The `if school_id not in travel_time_cache:` block: resolve the school's
stop; when one is found call `get_travel_time` and cache the result (possibly
absent); when none is found cache `none` directly, issuing no travel-time
call. -/
def updateCache (env : Env) (origin_id : Option String) (st : LoopState)
    (school_id school_name school_location : String) : LoopState :=
  match cacheLookup school_id st.cache with
  | some _ => st
  | none =>
    match (find_school_stop (ResRobotClient.lookup_stop env) school_name school_location).1 with
    | some stop =>
      { st with
        cache := (school_id, ResRobotClient.get_travel_time env origin_id stop.extId) :: st.cache,
        trace := st.trace ++ [Event.resolve school_id, Event.travel school_id] }
    | none =>
      { st with
        cache := (school_id, none) :: st.cache,
        trace := st.trace ++ [Event.resolve school_id] }

/-- The `for program in programs:` loop: fetch every program page, skip a
program whose page is absent (or falsy) or whose study-path list is empty,
otherwise append one row per study path. -/
def processPrograms (env : Env) (school_id school_name school_location municipality : String)
    (travel_time : Option Nat) : List String → List Row → List Event → List Row × List Event
  | [], rows, trace => (rows, trace)
  | program :: rest, rows, trace =>
    let trace2 := trace ++ [Event.page school_id program]
    match EdniaClient.get_program_page env school_id program municipality with
    | none =>
      processPrograms env school_id school_name school_location municipality travel_time
        rest rows trace2
    | some program_page =>
      let education_stats := program_page.educationStats.getD
        { averageGrade := none, flowthroughRate := none }
      let study_paths := program_page.studyPaths.getD []
      if study_paths.isEmpty then
        processPrograms env school_id school_name school_location municipality travel_time
          rest rows trace2
      else
        let newRows := study_paths.map (fun study_path =>
          { school_name := school_name
            school_location := school_location
            program := program
            averageGrade := education_stats.averageGrade
            flowthroughRate := education_stats.flowthroughRate
            female_ratio := program_page.female_ratio
            studyPath_name := study_path.name.getD ""
            compareNumber := study_path.compareNumber
            min := study_path.min
            median := study_path.median
            admitted := study_path.admitted
            travel_time_minutes := travel_time : Row })
        processPrograms env school_id school_name school_location municipality travel_time
          rest (rows ++ newRows) trace2

/-- Body of one iteration of the phase-3 loop once `school["id"]` and
`school["name"]` have been read successfully. -/
def processSchoolCore (env : Env) (origin_id : Option String) (st : LoopState)
    (sch : SchoolRec) (school_id school_name : String) : LoopState :=
  let school_location := sch.location.getD ""
  let municipality := sch.municipality.getD "stockholm"
  let programs := sch.programs.getD []
  let st1 := updateCache env origin_id st school_id school_name school_location
  let travel_time := (cacheLookup school_id st1.cache).getD none
  let pr := processPrograms env school_id school_name school_location municipality travel_time
    programs st1.rows st1.trace
  { cache := st1.cache, rows := pr.1, trace := pr.2 }

/-- One iteration of the phase-3 loop.  `school["id"]` and `school["name"]` are
mandatory subscript accesses: a missing key raises an uncaught `KeyError`. -/
def processSchool (env : Env) (origin_id : Option String) (st : LoopState)
    (sch : SchoolRec) : Option PipeError × LoopState :=
  match sch.id with
  | none => (some (PipeError.keyError "id"), st)
  | some school_id =>
    match sch.name with
    | none => (some (PipeError.keyError "name"), st)
    | some school_name => (none, processSchoolCore env origin_id st sch school_id school_name)

/-- The phase-3 loop over the (possibly limited) school list; stops at the
first uncaught error. -/
def runSchools (env : Env) (origin_id : Option String) :
    List SchoolRec → LoopState → Option PipeError × LoopState
  | [], st => (none, st)
  | school :: rest, st =>
    let r := processSchool env origin_id st school
    match r.1 with
    | some e => (some e, r.2)
    | none => runSchools env origin_id rest r.2

/-- The `if config.school_limit: schools = schools[:config.school_limit]`
truncation.  `school_limit` is falsy when it is `None` or `0`; a Python slice
`l[:n]` with negative `n` drops `-n` elements from the end. -/
def apply_limit (limit : Option Int) (schools : List SchoolRec) : List SchoolRec :=
  match limit with
  | none => schools
  | some n =>
    if n = 0 then schools
    else if 0 ≤ n then schools.take n.toNat
    else schools.take (schools.length - (-n).toNat)

/-- Outcome of a run: `error = none` means the run completed and wrote
`rows`; otherwise the process aborted with the given error.  `trace` lists the
external calls issued before the outcome. -/
structure ExportResult where
  error : Option PipeError
  rows : List Row
  trace : List Event
deriving DecidableEq, Repr

/-- `export_schools` from `src/export.py`: resolve the origin (fatal on
failure), fetch the school listing (an exception there propagates), apply the
optional limit, then run the phase-3 loop. -/
def export_schools (config : Config) (env : Env) : ExportResult :=
  match ResRobotClient.lookup_stop env config.origin_name with
  | none => { error := some PipeError.exitOne, rows := [], trace := [Event.originLookup] }
  | some origin_stop =>
    match EdniaClient.get_schools env with
    | Except.error e =>
      { error := some e, rows := [], trace := [Event.originLookup, Event.fetchSchools] }
    | Except.ok allSchools =>
      let schools := apply_limit config.school_limit allSchools
      let r := runSchools env origin_stop.extId schools
        { cache := [], rows := [], trace := [Event.originLookup, Event.fetchSchools] }
      { error := r.1, rows := r.2.rows, trace := r.2.trace }

/-- Row count contributed by one `(school, program)` pair: the number of study
paths when the page was obtained and its study-path list is non-empty, zero
when the page is absent or the list is empty. -/
def programRowCount (env : Env) (school_id municipality program : String) : Nat :=
  match EdniaClient.get_program_page env school_id program municipality with
  | none => 0
  | some page =>
    if (page.studyPaths.getD []).isEmpty then 0 else (page.studyPaths.getD []).length

/-- Row count contributed by one school of the listing. -/
def schoolRowCount (env : Env) (sch : SchoolRec) : Nat :=
  ((sch.programs.getD []).map
    (programRowCount env (sch.id.getD "") (sch.municipality.getD "stockholm"))).sum

/-! ## Lemmas about `parse_duration` -/

theorem takeDigits_cons_not_digit (c : Char) (r : List Char) (h : c.isDigit = false) :
    takeDigits (c :: r) = ([], c :: r) := by
  simp [takeDigits, h]

theorem takeDigits_head_not_digit (l : List Char)
    (h : ∀ c, l.head? = some c → c.isDigit = false) :
    takeDigits l = ([], l) := by
  cases l with
  | nil => rfl
  | cons c r => exact takeDigits_cons_not_digit c r (h c rfl)

theorem takeDigits_digits_append (d r : List Char) (hd : d.all Char.isDigit)
    (hr : ∀ c, r.head? = some c → c.isDigit = false) :
    takeDigits (d ++ r) = (d, r) := by
  induction d with
  | nil => simpa using takeDigits_head_not_digit r hr
  | cons c d ih =>
    simp only [List.all_cons, Bool.and_eq_true] at hd
    simp [takeDigits, hd.1, ih hd.2]

theorem tryNumGroup_no_digit (l : List Char) (suffix : Char)
    (h : ∀ c, l.head? = some c → c.isDigit = false) :
    tryNumGroup l suffix = (none, l) := by
  have ht := takeDigits_head_not_digit l h
  simp [tryNumGroup, ht]

theorem tryNumGroup_hit (d r : List Char) (suffix : Char) (hd : d ≠ [])
    (hall : d.all Char.isDigit) (hs : suffix.isDigit = false) :
    tryNumGroup (d ++ suffix :: r) suffix = (some (digitsVal d), r) := by
  have ht : takeDigits (d ++ suffix :: r) = (d, suffix :: r) := by
    refine takeDigits_digits_append d (suffix :: r) hall ?_
    intro c hc
    simp only [List.head?] at hc
    cases hc
    exact hs
  cases d with
  | nil => exact absurd rfl hd
  | cons a as =>
    unfold tryNumGroup
    rw [ht]
    simp

theorem tryNumGroup_miss (d r : List Char) (c suffix : Char) (hd : d ≠ [])
    (hall : d.all Char.isDigit) (hc : c.isDigit = false) (hne : c ≠ suffix) :
    tryNumGroup (d ++ c :: r) suffix = (none, d ++ c :: r) := by
  have ht : takeDigits (d ++ c :: r) = (d, c :: r) := by
    refine takeDigits_digits_append d (c :: r) hall ?_
    intro c2 hc2
    simp only [List.head?] at hc2
    cases hc2
    exact hc
  cases d with
  | nil => exact absurd rfl hd
  | cons a as =>
    unfold tryNumGroup
    rw [ht]
    simp [hne]

theorem tryNumGroup_nil (suffix : Char) : tryNumGroup [] suffix = (none, []) := rfl

theorem parse_duration_eq_core (s : String) : parse_duration s = parseCore s.data := by
  by_cases h : s = ""
  · subst h; rfl
  · simp [parse_duration, h]

theorem parseCore_pt (rest : List Char) :
    parseCore ('P' :: 'T' :: rest) =
      some (((tryNumGroup rest 'H').1.getD 0) * 60 +
        ((tryNumGroup (tryNumGroup rest 'H').2 'M').1.getD 0)) := rfl

theorem parseCore_none (l : List Char) (h : ¬ ∃ rest, l = 'P' :: 'T' :: rest) :
    parseCore l = none := by
  unfold parseCore
  split
  · rename_i rest
    exact absurd ⟨rest, rfl⟩ h
  · rfl

/-- C6 counterexample: `"PTxyz"` is not of the form "PT" followed by an
optional hour count with "H" and an optional minute count with "M", so the
claim requires the parser to return absent on it; but `re.match` only anchors
at the start of the input, so the code matches the bare "PT" prefix, ignores
the trailing `"xyz"`, and returns `0` minutes instead of absent. -/
theorem claim_C6_cex : parse_duration "PTxyz" = some 0 := by decide

/-- C6 (amended): `parse_duration` returns `hours*60 + minutes` for every input
that is exactly "PT" followed by an optional digit run with "H" and an optional
digit run with "M" (each missing component defaulting to zero, a bare "PT"
yielding 0); and it returns absent exactly for the inputs that do not *begin*
with the characters "PT" (in particular the empty input).  Any input beginning
with "PT" — even with trailing garbage — yields a value, because the regex
matches a prefix. -/
theorem claim_C6 : ∀ (dh dm : List Char) (s : String),
    parse_duration "PT" = some 0 ∧
    (dh ≠ [] → dh.all Char.isDigit →
      parse_duration (String.mk ('P' :: 'T' :: (dh ++ ['H']))) = some (digitsVal dh * 60)) ∧
    (dm ≠ [] → dm.all Char.isDigit →
      parse_duration (String.mk ('P' :: 'T' :: (dm ++ ['M']))) = some (digitsVal dm)) ∧
    (dh ≠ [] → dm ≠ [] → dh.all Char.isDigit → dm.all Char.isDigit →
      parse_duration (String.mk ('P' :: 'T' :: (dh ++ 'H' :: (dm ++ ['M'])))) =
        some (digitsVal dh * 60 + digitsVal dm)) ∧
    (parse_duration s = none ↔ ¬ ∃ rest, s.data = 'P' :: 'T' :: rest) := by
  intro dh dm s
  refine ⟨by decide, ?_, ?_, ?_, ?_⟩
  · intro hne hall
    rw [parse_duration_eq_core]
    show parseCore ('P' :: 'T' :: (dh ++ ['H'])) = _
    rw [parseCore_pt, tryNumGroup_hit dh [] 'H' hne hall (by decide)]
    simp [tryNumGroup_nil]
  · intro hne hall
    rw [parse_duration_eq_core]
    show parseCore ('P' :: 'T' :: (dm ++ ['M'])) = _
    rw [parseCore_pt, tryNumGroup_miss dm [] 'M' 'H' hne hall (by decide) (by decide)]
    show some (((none : Option Nat)).getD 0 * 60 +
      ((tryNumGroup (dm ++ ['M']) 'M').1.getD 0)) = _
    rw [tryNumGroup_hit dm [] 'M' hne hall (by decide)]
    simp [tryNumGroup_nil]
  · intro hh hm hallh hallm
    rw [parse_duration_eq_core]
    show parseCore ('P' :: 'T' :: (dh ++ 'H' :: (dm ++ ['M']))) = _
    rw [parseCore_pt, tryNumGroup_hit dh (dm ++ ['M']) 'H' hh hallh (by decide)]
    show some ((some (digitsVal dh)).getD 0 * 60 +
      ((tryNumGroup (dm ++ ['M']) 'M').1.getD 0)) = _
    rw [tryNumGroup_hit dm [] 'M' hm hallm (by decide)]
    simp
  · rw [parse_duration_eq_core]
    constructor
    · intro h hex
      obtain ⟨rest, hr⟩ := hex
      rw [hr, parseCore_pt] at h
      exact Option.noConfusion h
    · intro h
      exact parseCore_none _ h

/-- C6 witness: a token with one hour and five minutes parses to 65 minutes. -/
theorem claim_C6_witness :
    parse_duration (String.mk ('P' :: 'T' :: (['1'] ++ 'H' :: (['5'] ++ ['M'])))) =
      some (digitsVal ['1'] * 60 + digitsVal ['5']) :=
  (claim_C6 ['1'] ['5'] "").2.2.2.1 (by decide) (by decide) (by decide) (by decide)

/-- C7: through a single RateLimiter instance with a non-negative interval `d`,
any two consecutive permitted calls are at least `d` apart, whatever the raw
call-time sequence `t`; and the first call is permitted at its own call time —
undelayed — whenever the clock at the first call reads at least `d` (the stored
`last_request` starts at time 0, the epoch, so on a real clock the first call
never sleeps). -/
theorem claim_C7 : ∀ (d : Rat) (t : Nat → Rat), 0 ≤ d →
    (∀ n, d ≤ RateLimiter.permitted d t (n + 1) - RateLimiter.permitted d t n) ∧
    (d ≤ t 0 → RateLimiter.permitted d t 0 = t 0) := by
  intro d t hd
  constructor
  · intro n
    show d ≤ RateLimiter.rate_limit d (RateLimiter.lastTimes d t (n + 1)) (t (n + 1)) -
      RateLimiter.lastTimes d t (n + 1)
    set last := RateLimiter.lastTimes d t (n + 1) with hlast
    unfold RateLimiter.rate_limit
    split
    · linarith
    · rename_i hnot
      linarith [not_lt.mp hnot]
  · intro h0
    show RateLimiter.rate_limit d (RateLimiter.lastTimes d t 0) (t 0) = t 0
    show RateLimiter.rate_limit d 0 (t 0) = t 0
    unfold RateLimiter.rate_limit
    rw [if_neg]
    simp only [sub_zero]
    linarith

/-- C7 witness: with interval 1 and all call times at clock 5, consecutive
permitted calls are ≥ 1 apart and the first call is permitted at time 5. -/
theorem claim_C7_witness :
    (1 : Rat) ≤ RateLimiter.permitted 1 (fun _ => 5) 1 - RateLimiter.permitted 1 (fun _ => 5) 0 ∧
    RateLimiter.permitted 1 (fun _ => 5) 0 = 5 :=
  ⟨(claim_C7 1 (fun _ => 5) (by norm_num)).1 0,
   (claim_C7 1 (fun _ => 5) (by norm_num)).2 (by norm_num)⟩

/-- C4: `find_school_stop` issues at most three lookups, tries the variants in
strict order — the school name, then the school name + " Stockholm", then (only
when a district/location name is given, i.e. truthy) the location +
" Stockholm" — returns the stop of the first variant that succeeds without
issuing the later variants, and returns absent when all applicable variants
fail. -/
theorem claim_C4 : ∀ (lookup : String → Option Stop) (school_name location : String),
    (find_school_stop lookup school_name location).2.length ≤ 3 ∧
    (∀ s, lookup school_name = some s →
      find_school_stop lookup school_name location = (some s, [school_name])) ∧
    (∀ s, lookup school_name = none → lookup (school_name ++ " Stockholm") = some s →
      find_school_stop lookup school_name location =
        (some s, [school_name, school_name ++ " Stockholm"])) ∧
    (lookup school_name = none → lookup (school_name ++ " Stockholm") = none → location ≠ "" →
      find_school_stop lookup school_name location =
        (lookup (location ++ " Stockholm"),
          [school_name, school_name ++ " Stockholm", location ++ " Stockholm"])) ∧
    (lookup school_name = none → lookup (school_name ++ " Stockholm") = none → location = "" →
      find_school_stop lookup school_name location =
        (none, [school_name, school_name ++ " Stockholm"])) := by
  intro lookup school_name location
  refine ⟨?_, ?_, ?_, ?_, ?_⟩
  · unfold find_school_stop
    rcases h1 : lookup school_name with _ | s1
    · rcases h2 : lookup (school_name ++ " Stockholm") with _ | s2
      · by_cases hl : location ≠ "" <;> simp [hl]
      · simp
    · simp
  · intro s h1
    unfold find_school_stop
    rw [h1]
  · intro s h1 h2
    unfold find_school_stop
    rw [h1, h2]
  · intro h1 h2 hl
    unfold find_school_stop
    rw [h1, h2, if_pos hl]
  · intro h1 h2 hl
    unfold find_school_stop
    rw [h1, h2, if_neg (by simp [hl])]

/-- Lookup oracle for the C4 witness: only the district query resolves. -/
def c4Lookup : String → Option Stop := fun q =>
  if q = "Kärrtorp Stockholm" then some { name := some "Kärrtorp", extId := some "740021719" }
  else none

/-- C4 witness: variants 1 and 2 fail, the district is given, so exactly the
three queries are issued in order and the third variant's result is returned. -/
theorem claim_C4_witness :
    find_school_stop c4Lookup "Skolan" "Kärrtorp" =
      (c4Lookup ("Kärrtorp" ++ " Stockholm"),
        ["Skolan", "Skolan" ++ " Stockholm", "Kärrtorp" ++ " Stockholm"]) :=
  (claim_C4 c4Lookup "Skolan" "Kärrtorp").2.2.2.1 (by decide) (by decide) (by decide)

/-- Environment for the C5 counterexample: the search response has exactly one
candidate entry, and that entry carries no `StopLocation` payload (for example
a coordinate-only location). -/
def c5Env : Env :=
  { lookupResp := fun _ => some [none]
    tripResp := fun _ _ => none
    schoolsResp := none
    pageResp := fun _ _ _ => none }

/-- C5 counterexample: the claim says `lookup_stop` returns absent *exactly*
when the response contains no candidates or the request fails, and otherwise
returns the first candidate when none matches "Stockholm".  Here the request
succeeds and the response contains one candidate, yet the result is absent,
because the sole candidate entry has no `StopLocation` payload
(`locations[0].get("StopLocation")` is `None`). -/
theorem claim_C5_cex :
    ResRobotClient.lookup_stop c5Env "Kungsholmen" = none ∧
    c5Env.lookupResp "Kungsholmen" = some [none] ∧
    [(none : Option Stop)] ≠ [] := by
  refine ⟨rfl, rfl, by simp⟩

/-- C5 (amended): when the request fails the result is absent.  When it
succeeds, `lookup_stop` returns the stop of the first candidate entry whose
stop name contains "Stockholm" in any letter-casing (such an entry necessarily
carries a stop); when no entry matches, it returns the `StopLocation` payload
of the *first* candidate entry — which is the first candidate when that entry
carries a stop, but absent when the response is empty or its first entry
carries no stop payload. -/
theorem claim_C5 : ∀ (env : Env) (query : String) (locs : List (Option Stop))
    (e : Option Stop),
    (env.lookupResp query = none → ResRobotClient.lookup_stop env query = none) ∧
    (env.lookupResp query = some locs → locs.find? isStockholmEntry = some e →
      ResRobotClient.lookup_stop env query = e ∧ e.isSome) ∧
    (env.lookupResp query = some locs → locs.find? isStockholmEntry = none →
      ResRobotClient.lookup_stop env query = locs.head?.join) := by
  intro env query locs e
  refine ⟨?_, ?_, ?_⟩
  · intro h
    unfold ResRobotClient.lookup_stop
    rw [h]
  · intro h hf
    have hsome : e.isSome := by
      have hp := List.find?_some hf
      cases e with
      | none => simp [isStockholmEntry, entryName, containsStr, pyLower] at hp
      | some s => rfl
    refine ⟨?_, hsome⟩
    unfold ResRobotClient.lookup_stop
    rw [h]
    dsimp only
    rw [hf]
  · intro h hf
    unfold ResRobotClient.lookup_stop
    rw [h]
    dsimp only
    rw [hf]
    cases locs with
    | nil => rfl
    | cons a l => simp

/-- Environment for the C5 witness: the response has three entries — a
payload-free entry, a non-Stockholm stop, and an upper-cased Stockholm stop in
third position. -/
def c5WEnv : Env :=
  { lookupResp := fun _ =>
      some [none,
        some { name := some "Arlanda C", extId := some "740000556" },
        some { name := some "STOCKHOLM City", extId := some "740001617" }]
    tripResp := fun _ _ => none
    schoolsResp := none
    pageResp := fun _ _ _ => none }

/-- C5 witness: the upper-cased "STOCKHOLM City" entry in third position is
selected over the first entries, matching case-insensitively. -/
theorem claim_C5_witness :
    ResRobotClient.lookup_stop c5WEnv "City" =
      some { name := some "STOCKHOLM City", extId := some "740001617" } ∧
    (some { name := some "STOCKHOLM City", extId := some "740001617" } : Option Stop).isSome :=
  (claim_C5 c5WEnv "City"
      [none, some { name := some "Arlanda C", extId := some "740000556" },
        some { name := some "STOCKHOLM City", extId := some "740001617" }]
      (some { name := some "STOCKHOLM City", extId := some "740001617" })).2.1
    rfl (by decide)

/-! ## Lemmas about the orchestrator -/

theorem countEv_append (ev : Event) (l1 l2 : List Event) :
    countEv ev (l1 ++ l2) = countEv ev l1 + countEv ev l2 := by
  simp [countEv]

theorem countEv_singleton_ne (ev e : Event) (h : e ≠ ev) : countEv ev [e] = 0 := by
  simp [countEv, h]

theorem countEv_singleton (ev : Event) : countEv ev [ev] = 1 := by
  simp [countEv]

theorem cacheLookup_cons_self (k : String) (v : Option Nat)
    (rest : List (String × Option Nat)) : cacheLookup k ((k, v) :: rest) = some v := by
  simp [cacheLookup]

theorem cacheLookup_cons_ne (k k2 : String) (v : Option Nat)
    (rest : List (String × Option Nat)) (h : k2 ≠ k) :
    cacheLookup k ((k2, v) :: rest) = cacheLookup k rest := by
  simp [cacheLookup, h]

theorem processPrograms_rows_len (env : Env) (sid sname sloc muni : String)
    (tt : Option Nat) : ∀ (ps : List String) (rows : List Row) (trace : List Event),
    (processPrograms env sid sname sloc muni tt ps rows trace).1.length =
      rows.length + (ps.map (programRowCount env sid muni)).sum := by
  intro ps
  induction ps with
  | nil =>
    intro rows trace
    simp [processPrograms]
  | cons p rest ih =>
    intro rows trace
    unfold processPrograms
    cases hp : EdniaClient.get_program_page env sid p muni with
    | none =>
      have hz : programRowCount env sid muni p = 0 := by simp [programRowCount, hp]
      rw [ih]
      simp [hz]
    | some page =>
      dsimp only
      by_cases hsp : (page.studyPaths.getD []).isEmpty
      · rw [if_pos hsp, ih]
        have hz : programRowCount env sid muni p = 0 := by simp [programRowCount, hp, hsp]
        simp [hz]
      · rw [if_neg hsp, ih]
        have hz : programRowCount env sid muni p = (page.studyPaths.getD []).length := by
          simp [programRowCount, hp, hsp]
        simp [hz]
        omega

theorem processPrograms_trace_count (env : Env) (sid sname sloc muni : String)
    (tt : Option Nat) (ev : Event) (hev : ∀ a b, ev ≠ Event.page a b) :
    ∀ (ps : List String) (rows : List Row) (trace : List Event),
    countEv ev (processPrograms env sid sname sloc muni tt ps rows trace).2 =
      countEv ev trace := by
  intro ps
  induction ps with
  | nil =>
    intro rows trace
    simp [processPrograms]
  | cons p rest ih =>
    intro rows trace
    have hone : countEv ev (trace ++ [Event.page sid p]) = countEv ev trace := by
      rw [countEv_append, countEv_singleton_ne ev (Event.page sid p)
        (fun hh => hev sid p hh.symm)]
      omega
    unfold processPrograms
    cases hp : EdniaClient.get_program_page env sid p muni with
    | none =>
      rw [ih, hone]
    | some page =>
      dsimp only
      by_cases hsp : (page.studyPaths.getD []).isEmpty
      · rw [if_pos hsp, ih, hone]
      · rw [if_neg hsp, ih, hone]

theorem updateCache_rows (env : Env) (oid : Option String) (st : LoopState)
    (sid sname sloc : String) :
    (updateCache env oid st sid sname sloc).rows = st.rows := by
  unfold updateCache
  split
  · rfl
  · split <;> rfl

theorem updateCache_hit (env : Env) (oid : Option String) (st : LoopState)
    (sid sname sloc : String) (v : Option Nat) (h : cacheLookup sid st.cache = some v) :
    updateCache env oid st sid sname sloc = st := by
  unfold updateCache
  rw [h]

theorem updateCache_miss_found (env : Env) (oid : Option String) (st : LoopState)
    (sid sname sloc : String) (stop : Stop) (h : cacheLookup sid st.cache = none)
    (hf : (find_school_stop (ResRobotClient.lookup_stop env) sname sloc).1 = some stop) :
    updateCache env oid st sid sname sloc =
      { st with
        cache := (sid, ResRobotClient.get_travel_time env oid stop.extId) :: st.cache,
        trace := st.trace ++ [Event.resolve sid, Event.travel sid] } := by
  unfold updateCache
  rw [h]
  dsimp only
  rw [hf]

theorem updateCache_miss_absent (env : Env) (oid : Option String) (st : LoopState)
    (sid sname sloc : String) (h : cacheLookup sid st.cache = none)
    (hf : (find_school_stop (ResRobotClient.lookup_stop env) sname sloc).1 = none) :
    updateCache env oid st sid sname sloc =
      { st with
        cache := (sid, none) :: st.cache,
        trace := st.trace ++ [Event.resolve sid] } := by
  unfold updateCache
  rw [h]
  dsimp only
  rw [hf]

theorem ev_resolve_ne (a b : String) (h : a ≠ b) : Event.resolve a ≠ Event.resolve b := by
  simp [h]

theorem ev_travel_ne (a b : String) (h : a ≠ b) : Event.travel a ≠ Event.travel b := by
  simp [h]

theorem ev_travel_ne_resolve (a b : String) : Event.travel a ≠ Event.resolve b := by
  simp

theorem ev_resolve_ne_travel (a b : String) : Event.resolve a ≠ Event.travel b := by
  simp

theorem countEv_append_two (ev a b : Event) (l : List Event) :
    countEv ev (l ++ [a, b]) = countEv ev l + countEv ev [a] + countEv ev [b] := by
  rw [show [a, b] = [a] ++ [b] from rfl, ← List.append_assoc, countEv_append, countEv_append]

theorem processSchool_id_none (env : Env) (oid : Option String) (st : LoopState)
    (sch : SchoolRec) (h : sch.id = none) :
    processSchool env oid st sch = (some (PipeError.keyError "id"), st) := by
  unfold processSchool
  rw [h]

theorem processSchool_name_none (env : Env) (oid : Option String) (st : LoopState)
    (sch : SchoolRec) (sid : String) (hid : sch.id = some sid) (h : sch.name = none) :
    processSchool env oid st sch = (some (PipeError.keyError "name"), st) := by
  unfold processSchool
  rw [hid]
  dsimp only
  rw [h]

theorem processSchool_ok (env : Env) (oid : Option String) (st : LoopState)
    (sch : SchoolRec) (sid sname : String) (hid : sch.id = some sid)
    (hn : sch.name = some sname) :
    processSchool env oid st sch = (none, processSchoolCore env oid st sch sid sname) := by
  unfold processSchool
  rw [hid]
  dsimp only
  rw [hn]

theorem processSchoolCore_rows_len (env : Env) (oid : Option String) (st : LoopState)
    (sch : SchoolRec) (sid sname : String) (hid : sch.id = some sid) :
    (processSchoolCore env oid st sch sid sname).rows.length =
      st.rows.length + schoolRowCount env sch := by
  unfold processSchoolCore
  dsimp only
  rw [processPrograms_rows_len, updateCache_rows]
  simp [schoolRowCount, hid]

/-- Trace/cache invariant used for the memoization claim: the school id `s` has
been resolved at most once — and exactly when it is in the cache — and has been
the subject of at most as many travel-time calls as resolutions. -/
def CacheInv (s : String) (st : LoopState) : Prop :=
  countEv (Event.resolve s) st.trace ≤ (if (cacheLookup s st.cache).isSome then 1 else 0) ∧
  countEv (Event.travel s) st.trace ≤ countEv (Event.resolve s) st.trace

theorem updateCache_inv (env : Env) (oid : Option String) (st : LoopState)
    (sid sname sloc : String) (s : String) (hinv : CacheInv s st) :
    CacheInv s (updateCache env oid st sid sname sloc) := by
  have hres := hinv.1
  have htrv := hinv.2
  cases hc : cacheLookup sid st.cache with
  | some v => rw [updateCache_hit env oid st sid sname sloc v hc]; exact hinv
  | none =>
    cases hf : (find_school_stop (ResRobotClient.lookup_stop env) sname sloc).1 with
    | some stop =>
      rw [updateCache_miss_found env oid st sid sname sloc stop hc hf]
      by_cases hs : s = sid
      · subst hs
        have h1 : countEv (Event.resolve s) (st.trace ++ [Event.resolve s, Event.travel s]) =
            countEv (Event.resolve s) st.trace + 1 := by
          rw [countEv_append_two, countEv_singleton,
            countEv_singleton_ne _ _ (ev_travel_ne_resolve s s)]
        have h2 : countEv (Event.travel s) (st.trace ++ [Event.resolve s, Event.travel s]) =
            countEv (Event.travel s) st.trace + 1 := by
          rw [countEv_append_two, countEv_singleton,
            countEv_singleton_ne _ _ (ev_resolve_ne_travel s s)]
        have hold : countEv (Event.resolve s) st.trace ≤ 0 := by
          rw [hc] at hres
          simpa using hres
        refine ⟨?_, ?_⟩
        · dsimp only
          rw [h1, cacheLookup_cons_self]
          simp
          omega
        · dsimp only
          rw [h1, h2]
          omega
      · have hs2 : sid ≠ s := fun hh => hs hh.symm
        have h1 : countEv (Event.resolve s) (st.trace ++ [Event.resolve sid, Event.travel sid]) =
            countEv (Event.resolve s) st.trace := by
          rw [countEv_append_two, countEv_singleton_ne _ _ (ev_resolve_ne sid s hs2),
            countEv_singleton_ne _ _ (ev_travel_ne_resolve sid s)]
          omega
        have h2 : countEv (Event.travel s) (st.trace ++ [Event.resolve sid, Event.travel sid]) =
            countEv (Event.travel s) st.trace := by
          rw [countEv_append_two, countEv_singleton_ne _ _ (ev_resolve_ne_travel sid s),
            countEv_singleton_ne _ _ (ev_travel_ne sid s hs2)]
          omega
        refine ⟨?_, ?_⟩
        · dsimp only
          rw [h1, cacheLookup_cons_ne s sid _ _ hs2]
          exact hres
        · dsimp only
          rw [h1, h2]
          exact htrv
    | none =>
      rw [updateCache_miss_absent env oid st sid sname sloc hc hf]
      by_cases hs : s = sid
      · subst hs
        have h1 : countEv (Event.resolve s) (st.trace ++ [Event.resolve s]) =
            countEv (Event.resolve s) st.trace + 1 := by
          rw [countEv_append, countEv_singleton]
        have h2 : countEv (Event.travel s) (st.trace ++ [Event.resolve s]) =
            countEv (Event.travel s) st.trace := by
          rw [countEv_append, countEv_singleton_ne _ _ (ev_resolve_ne_travel s s)]
          omega
        have hold : countEv (Event.resolve s) st.trace ≤ 0 := by
          rw [hc] at hres
          simpa using hres
        refine ⟨?_, ?_⟩
        · dsimp only
          rw [h1, cacheLookup_cons_self]
          simp
          omega
        · dsimp only
          rw [h1, h2]
          omega
      · have hs2 : sid ≠ s := fun hh => hs hh.symm
        have h1 : countEv (Event.resolve s) (st.trace ++ [Event.resolve sid]) =
            countEv (Event.resolve s) st.trace := by
          rw [countEv_append, countEv_singleton_ne _ _ (ev_resolve_ne sid s hs2)]
          omega
        have h2 : countEv (Event.travel s) (st.trace ++ [Event.resolve sid]) =
            countEv (Event.travel s) st.trace := by
          rw [countEv_append, countEv_singleton_ne _ _ (ev_resolve_ne_travel sid s)]
          omega
        refine ⟨?_, ?_⟩
        · dsimp only
          rw [h1, cacheLookup_cons_ne s sid _ _ hs2]
          exact hres
        · dsimp only
          rw [h1, h2]
          exact htrv

theorem processSchool_inv (env : Env) (oid : Option String) (st : LoopState)
    (sch : SchoolRec) (s : String) (hinv : CacheInv s st) :
    CacheInv s (processSchool env oid st sch).2 := by
  cases hid : sch.id with
  | none => rw [processSchool_id_none env oid st sch hid]; exact hinv
  | some sid =>
    cases hn : sch.name with
    | none => rw [processSchool_name_none env oid st sch sid hid hn]; exact hinv
    | some sname =>
      rw [processSchool_ok env oid st sch sid sname hid hn]
      have h1 := updateCache_inv env oid st sid sname (sch.location.getD "") s hinv
      unfold processSchoolCore
      dsimp only
      refine ⟨?_, ?_⟩
      · rw [processPrograms_trace_count env sid sname _ _ _ (Event.resolve s)
          (by intro a b; simp)]
        exact h1.1
      · rw [processPrograms_trace_count env sid sname _ _ _ (Event.travel s)
          (by intro a b; simp),
          processPrograms_trace_count env sid sname _ _ _ (Event.resolve s)
          (by intro a b; simp)]
        exact h1.2

theorem runSchools_inv (env : Env) (oid : Option String) (s : String) :
    ∀ (schools : List SchoolRec) (st : LoopState), CacheInv s st →
    CacheInv s (runSchools env oid schools st).2 := by
  intro schools
  induction schools with
  | nil => intro st h; exact h
  | cons sch rest ih =>
    intro st h
    unfold runSchools
    dsimp only
    cases hr : (processSchool env oid st sch).1 with
    | some e => exact processSchool_inv env oid st sch s h
    | none => exact ih _ (processSchool_inv env oid st sch s h)

theorem runSchools_ok (env : Env) (oid : Option String) :
    ∀ (schools : List SchoolRec) (st : LoopState),
    (∀ sch ∈ schools, sch.id.isSome ∧ sch.name.isSome) →
    (runSchools env oid schools st).1 = none := by
  intro schools
  induction schools with
  | nil => intro st h; rfl
  | cons sch rest ih =>
    intro st h
    obtain ⟨hid0, hn0⟩ := h sch (List.mem_cons_self sch rest)
    obtain ⟨sid, hid⟩ := Option.isSome_iff_exists.mp hid0
    obtain ⟨sname, hn⟩ := Option.isSome_iff_exists.mp hn0
    unfold runSchools
    dsimp only
    rw [processSchool_ok env oid st sch sid sname hid hn]
    dsimp only
    exact ih _ (fun s2 hm => h s2 (List.mem_cons_of_mem sch hm))

theorem runSchools_err (env : Env) (oid : Option String) :
    ∀ (schools : List SchoolRec) (st : LoopState),
    (∃ sch ∈ schools, sch.id = none ∨ sch.name = none) →
    ∃ k, (runSchools env oid schools st).1 = some (PipeError.keyError k) := by
  intro schools
  induction schools with
  | nil =>
    intro st h
    obtain ⟨sch, hm, _⟩ := h
    exact absurd hm (List.not_mem_nil sch)
  | cons sch rest ih =>
    intro st h
    unfold runSchools
    dsimp only
    cases hid : sch.id with
    | none =>
      rw [processSchool_id_none env oid st sch hid]
      exact ⟨"id", rfl⟩
    | some sid =>
      cases hn : sch.name with
      | none =>
        rw [processSchool_name_none env oid st sch sid hid hn]
        exact ⟨"name", rfl⟩
      | some sname =>
        rw [processSchool_ok env oid st sch sid sname hid hn]
        dsimp only
        refine ih _ ?_
        obtain ⟨s2, hm, hbad⟩ := h
        rcases List.mem_cons.mp hm with he | hm2
        · subst he
          cases hbad with
          | inl hb => rw [hid] at hb; exact Option.noConfusion hb
          | inr hb => rw [hn] at hb; exact Option.noConfusion hb
        · exact ⟨s2, hm2, hbad⟩

theorem runSchools_rows (env : Env) (oid : Option String) :
    ∀ (schools : List SchoolRec) (st : LoopState),
    (runSchools env oid schools st).1 = none →
    (runSchools env oid schools st).2.rows.length =
      st.rows.length + (schools.map (schoolRowCount env)).sum := by
  intro schools
  induction schools with
  | nil => intro st h; simp [runSchools]
  | cons sch rest ih =>
    intro st h
    cases hid : sch.id with
    | none =>
      unfold runSchools at h
      dsimp only at h
      rw [processSchool_id_none env oid st sch hid] at h
      simp at h
    | some sid =>
      cases hn : sch.name with
      | none =>
        unfold runSchools at h
        dsimp only at h
        rw [processSchool_name_none env oid st sch sid hid hn] at h
        simp at h
      | some sname =>
        unfold runSchools at h ⊢
        dsimp only at h ⊢
        rw [processSchool_ok env oid st sch sid sname hid hn] at h ⊢
        dsimp only at h ⊢
        rw [ih _ h, processSchoolCore_rows_len env oid st sch sid sname hid]
        simp
        omega

theorem get_schools_ok (env : Env) (l : List SchoolRec) (h : env.schoolsResp = some l) :
    EdniaClient.get_schools env = Except.ok l := by
  unfold EdniaClient.get_schools
  rw [h]

theorem export_schools_run (cfg : Config) (env : Env) (stop : Stop) (l : List SchoolRec)
    (ho : ResRobotClient.lookup_stop env cfg.origin_name = some stop)
    (hs : env.schoolsResp = some l) :
    export_schools cfg env =
      { error := (runSchools env stop.extId (apply_limit cfg.school_limit l)
          { cache := [], rows := [], trace := [Event.originLookup, Event.fetchSchools] }).1,
        rows := (runSchools env stop.extId (apply_limit cfg.school_limit l)
          { cache := [], rows := [], trace := [Event.originLookup, Event.fetchSchools] }).2.rows,
        trace := (runSchools env stop.extId (apply_limit cfg.school_limit l)
          { cache := [], rows := [], trace := [Event.originLookup, Event.fetchSchools] }).2.trace } := by
  unfold export_schools
  rw [ho]
  dsimp only
  rw [get_schools_ok env l hs]

theorem countEv_init (ev : Event) (h1 : Event.originLookup ≠ ev)
    (h2 : Event.fetchSchools ≠ ev) :
    countEv ev [Event.originLookup, Event.fetchSchools] = 0 := by
  rw [show [Event.originLookup, Event.fetchSchools] =
      [Event.originLookup] ++ [Event.fetchSchools] from rfl,
    countEv_append, countEv_singleton_ne _ _ h1, countEv_singleton_ne _ _ h2]

/-- C1: whenever a run of the export pipeline completes, the number of emitted
rows equals the sum, over every (school, program) pair of the processed listing
in order, of the study-path count of pairs whose program page was obtained with
a non-empty study-path list; pairs with an absent page or an empty study-path
list contribute zero. -/
theorem claim_C1 (cfg : Config) (env : Env)
    (h : (export_schools cfg env).error = none) :
    (export_schools cfg env).rows.length =
      ((apply_limit cfg.school_limit (env.schoolsResp.getD [])).map
        (schoolRowCount env)).sum := by
  cases ho : ResRobotClient.lookup_stop env cfg.origin_name with
  | none =>
    unfold export_schools at h
    rw [ho] at h
    simp at h
  | some stop =>
    cases hs : env.schoolsResp with
    | none =>
      unfold export_schools at h
      rw [ho] at h
      dsimp only at h
      rw [show EdniaClient.get_schools env = Except.error PipeError.uncaught from by
        unfold EdniaClient.get_schools; rw [hs]] at h
      simp at h
    | some l =>
      rw [export_schools_run cfg env stop l ho hs] at h ⊢
      dsimp only at h ⊢
      have hr := runSchools_rows env stop.extId (apply_limit cfg.school_limit l)
        { cache := [], rows := [], trace := [Event.originLookup, Event.fetchSchools] } h
      simpa using hr

/-- C3: throughout any run, each distinct school id is the subject of at most
one stop-resolution attempt and at most one travel-time call, no matter how
many programs the school has or how often its id recurs in the listing; and one
loop iteration that finds the id uncached and whose stop resolution yields no
stop issues no travel-time call for it and stores absent directly in the
cache. -/
theorem claim_C3 : ∀ (cfg : Config) (env : Env) (s : String),
    (countEv (Event.resolve s) (export_schools cfg env).trace ≤ 1 ∧
     countEv (Event.travel s) (export_schools cfg env).trace ≤ 1) ∧
    (∀ (oid : Option String) (st : LoopState) (sch : SchoolRec) (sname : String),
      sch.id = some s → sch.name = some sname →
      cacheLookup s st.cache = none →
      (find_school_stop (ResRobotClient.lookup_stop env) sname (sch.location.getD "")).1 =
        none →
      countEv (Event.travel s) (processSchool env oid st sch).2.trace =
        countEv (Event.travel s) st.trace ∧
      cacheLookup s (processSchool env oid st sch).2.cache = some none) := by
  intro cfg env s
  constructor
  · cases ho : ResRobotClient.lookup_stop env cfg.origin_name with
    | none =>
      unfold export_schools
      rw [ho]
      dsimp only
      constructor
      · rw [countEv_singleton_ne _ _ (by simp)]
        omega
      · rw [countEv_singleton_ne _ _ (by simp)]
        omega
    | some stop =>
      cases hs : env.schoolsResp with
      | none =>
        unfold export_schools
        rw [ho]
        dsimp only
        rw [show EdniaClient.get_schools env = Except.error PipeError.uncaught from by
          unfold EdniaClient.get_schools; rw [hs]]
        dsimp only
        constructor
        · rw [countEv_init _ (by simp) (by simp)]
          omega
        · rw [countEv_init _ (by simp) (by simp)]
          omega
      | some l =>
        rw [export_schools_run cfg env stop l ho hs]
        dsimp only
        have hinv0 : CacheInv s
            { cache := [], rows := [], trace := [Event.originLookup, Event.fetchSchools] } := by
          refine ⟨?_, ?_⟩
          · rw [countEv_init _ (by simp) (by simp)]
            simp [cacheLookup]
          · rw [countEv_init _ (by simp) (by simp),
              countEv_init _ (by simp) (by simp)]
        have hfin := runSchools_inv env stop.extId s (apply_limit cfg.school_limit l) _ hinv0
        obtain ⟨ha, hb⟩ := hfin
        refine ⟨le_trans ha ?_, le_trans hb (le_trans ha ?_)⟩ <;>
          · split <;> omega
  · intro oid st sch sname hid hn hcache hfind
    rw [processSchool_ok env oid st sch s sname hid hn]
    unfold processSchoolCore
    dsimp only
    rw [updateCache_miss_absent env oid st s sname (sch.location.getD "") hcache hfind]
    constructor
    · rw [processPrograms_trace_count env s sname _ _ _ (Event.travel s)
        (by intro a b; simp)]
      dsimp only
      rw [countEv_append, countEv_singleton_ne _ _ (ev_resolve_ne_travel s s)]
      omega
    · dsimp only
      rw [cacheLookup_cons_self]

/-- Concrete configuration for the C1 witness run. -/
def c1Cfg : Config :=
  { resrobot_api_key := "key", origin_name := "Björkhagen",
    output_file := "schools.csv", school_limit := none }

/-- Program page used by the C1 witness: two study paths. -/
def c1Page : ProgramPage :=
  { educationStats := some { averageGrade := some 250, flowthroughRate := some 87 }
    female_ratio := some 48
    studyPaths := some
      [{ name := some "NA", compareNumber := some 300, min := some 280,
         median := some 300, admitted := some 30 },
       { name := some "NAS", compareNumber := none, min := none,
         median := none, admitted := none }] }

/-- Environment for the C1 witness: one school with two programs; the first
program's page has two study paths, the second's page is absent. -/
def c1Env : Env :=
  { lookupResp := fun _ =>
      some [some { name := some "Björkhagen (Stockholm)", extId := some "740021654" }]
    tripResp := fun _ _ => some [{ duration := some "PT25M" }]
    schoolsResp := some
      [{ id := some "s1", name := some "Skola Ett", location := some "Kärrtorp",
         municipality := some "stockholm", programs := some ["NA", "EK"] }]
    pageResp := fun _ p _ => if p = "NA" then some (some c1Page) else some none }

/-- C1 witness: the run completes and emits exactly the predicted number of
rows (2: both from the first program; the second program contributes none). -/
theorem claim_C1_witness :
    (export_schools c1Cfg c1Env).error = none ∧
    (export_schools c1Cfg c1Env).rows.length =
      ((apply_limit c1Cfg.school_limit (c1Env.schoolsResp.getD [])).map
        (schoolRowCount c1Env)).sum :=
  ⟨by decide, claim_C1 c1Cfg c1Env (by decide)⟩

/-- Environment for the C3 witness: every external request raises. -/
def c3Env : Env :=
  { lookupResp := fun _ => none
    tripResp := fun _ _ => none
    schoolsResp := none
    pageResp := fun _ _ _ => none }

/-- Configuration for the C3 witness. -/
def c3Cfg : Config :=
  { resrobot_api_key := "k", origin_name := "Origo", output_file := "o.csv",
    school_limit := none }

/-- Loop state for the C3 witness (fresh cache). -/
def c3St : LoopState := { cache := [], rows := [], trace := [] }

/-- School record for the C3 witness. -/
def c3Sch : SchoolRec :=
  { id := some "s1", name := some "Skola", location := none,
    municipality := none, programs := none }

/-- C3 witness: the call-count bounds hold on a concrete run, and a concrete
iteration whose stop resolution fails issues no travel call for the school and
caches absent. -/
theorem claim_C3_witness :
    (countEv (Event.resolve "s1") (export_schools c3Cfg c3Env).trace ≤ 1 ∧
     countEv (Event.travel "s1") (export_schools c3Cfg c3Env).trace ≤ 1) ∧
    (countEv (Event.travel "s1") (processSchool c3Env none c3St c3Sch).2.trace =
      countEv (Event.travel "s1") c3St.trace ∧
     cacheLookup "s1" (processSchool c3Env none c3St c3Sch).2.cache = some none) :=
  ⟨(claim_C3 c3Cfg c3Env "s1").1,
   (claim_C3 c3Cfg c3Env "s1").2 none c3St c3Sch "Skola" rfl rfl rfl (by decide)⟩

/-- Configuration for the C2 counterexample. -/
def c2Cfg : Config :=
  { resrobot_api_key := "k", origin_name := "Björkhagen", output_file := "o.csv",
    school_limit := none }

/-- Environment for the C2 counterexample: phase 1 succeeds, but the phase-2
school-listing request raises. -/
def c2Env : Env :=
  { lookupResp := fun _ =>
      some [some { name := some "Björkhagen (Stockholm)", extId := some "740021654" }]
    tripResp := fun _ _ => none
    schoolsResp := none
    pageResp := fun _ _ _ => none }

/-- C2 counterexample: the claim says every external-call failure in phases 2–3
— including the school listing — is absorbed and processing continues.  But
`get_schools` has no exception handler: in a run whose phase 1 succeeded and
whose school-listing request raised, the pipeline aborts with an uncaught
exception instead of continuing. -/
theorem claim_C2_cex :
    c2Env.schoolsResp = none ∧
    (export_schools c2Cfg c2Env).error = some PipeError.uncaught :=
  ⟨rfl, by decide⟩

/-- C2 (amended): failures of the phase-3 external calls — stop lookup,
travel-time lookup and program-page fetch — are absorbed: the affected result
becomes absent and processing continues, so the run completes whenever phase 1
succeeds, the phase-2 school-listing request succeeds, and every processed
record carries an id and a name.  A failure of the school-listing request
itself is NOT absorbed: it propagates as an uncaught exception and aborts the
run.  Failure to resolve the origin stop in phase 1 remains fatal. -/
theorem claim_C2 : ∀ (cfg : Config) (env : Env) (l : List SchoolRec),
    (∀ q, env.lookupResp q = none → ResRobotClient.lookup_stop env q = none) ∧
    (∀ oid did, env.tripResp oid did = none →
      ResRobotClient.get_travel_time env oid did = none) ∧
    (∀ sid p m, env.pageResp sid p m = none →
      EdniaClient.get_program_page env sid p m = none) ∧
    ((ResRobotClient.lookup_stop env cfg.origin_name).isSome →
      env.schoolsResp = some l →
      (∀ sch ∈ apply_limit cfg.school_limit l, sch.id.isSome ∧ sch.name.isSome) →
      (export_schools cfg env).error = none) := by
  intro cfg env l
  refine ⟨?_, ?_, ?_, ?_⟩
  · intro q h
    unfold ResRobotClient.lookup_stop
    rw [h]
  · intro oid did h
    unfold ResRobotClient.get_travel_time
    rw [h]
  · intro sid p m h
    unfold EdniaClient.get_program_page
    rw [h]
  · intro ho hs hids
    obtain ⟨stop, ho2⟩ := Option.isSome_iff_exists.mp ho
    rw [export_schools_run cfg env stop l ho2 hs]
    dsimp only
    exact runSchools_ok env stop.extId _ _ hids

/-- School listing for the C2 witness. -/
def c2WSchools : List SchoolRec :=
  [{ id := some "s1", name := some "Skola", location := some "",
     municipality := none, programs := some ["NA"] }]

/-- Environment for the C2 witness: phases 1–2 succeed; every phase-3 external
call (school stop lookup, travel time, program page) fails. -/
def c2WEnv : Env :=
  { lookupResp := fun q =>
      if q = "Björkhagen" then
        some [some { name := some "Björkhagen (Stockholm)", extId := some "740021654" }]
      else none
    tripResp := fun _ _ => none
    schoolsResp := some c2WSchools
    pageResp := fun _ _ _ => none }

/-- Configuration for the C2 witness. -/
def c2WCfg : Config :=
  { resrobot_api_key := "k", origin_name := "Björkhagen", output_file := "o.csv",
    school_limit := none }

/-- C2 witness: with all phase-3 calls failing, the run still completes. -/
theorem claim_C2_witness : (export_schools c2WCfg c2WEnv).error = none :=
  (claim_C2 c2WCfg c2WEnv c2WSchools).2.2.2 (by decide) rfl (by decide)

/-- C8: when the configured origin name does not resolve to any stop, the run
terminates after phase 1 with the non-zero-exit outcome (`sys.exit(1)`),
emitting no rows and issuing no calls beyond the single origin lookup — no
progress is made into phases 2–4. -/
theorem claim_C8 (cfg : Config) (env : Env)
    (h : ResRobotClient.lookup_stop env cfg.origin_name = none) :
    (export_schools cfg env).error = some PipeError.exitOne ∧
    (export_schools cfg env).rows = [] ∧
    (export_schools cfg env).trace = [Event.originLookup] := by
  unfold export_schools
  rw [h]
  exact ⟨rfl, rfl, rfl⟩

/-- Environment for the C8 witness: the origin search returns no candidates. -/
def c8Env : Env :=
  { lookupResp := fun _ => some []
    tripResp := fun _ _ => none
    schoolsResp := some []
    pageResp := fun _ _ _ => none }

/-- Configuration for the C8 witness. -/
def c8Cfg : Config :=
  { resrobot_api_key := "k", origin_name := "Atlantis", output_file := "o.csv",
    school_limit := none }

/-- C8 witness: no stop for the origin, so the run aborts after one lookup. -/
theorem claim_C8_witness :
    (export_schools c8Cfg c8Env).error = some PipeError.exitOne ∧
    (export_schools c8Cfg c8Env).rows = [] ∧
    (export_schools c8Cfg c8Env).trace = [Event.originLookup] :=
  claim_C8 c8Cfg c8Env (by decide)

/-- C9: a configured positive limit `n` keeps exactly the first
`min(n, total)` schools of the listing; a configured limit of `0` is falsy in
the `if config.school_limit:` presence check, so no truncation happens and
every school is processed, exactly as when no limit is configured. -/
theorem claim_C9 : ∀ (n : Int) (l : List SchoolRec),
    (0 < n → apply_limit (some n) l = l.take n.toNat ∧
      (apply_limit (some n) l).length = min n.toNat l.length) ∧
    apply_limit (some 0) l = l ∧
    apply_limit none l = l := by
  intro n l
  refine ⟨?_, ?_, ?_⟩
  · intro hn
    have hne : n ≠ 0 := by omega
    have hle : (0 : Int) ≤ n := by omega
    unfold apply_limit
    dsimp only
    rw [if_neg hne, if_pos hle]
    exact ⟨rfl, by simp⟩
  · unfold apply_limit
    dsimp only
    rw [if_pos rfl]
  · rfl

/-- School listing for the C9 witness. -/
def c9Schools : List SchoolRec :=
  [{ id := some "a", name := some "A", location := none, municipality := none,
     programs := none },
   { id := some "b", name := some "B", location := none, municipality := none,
     programs := none },
   { id := some "c", name := some "C", location := none, municipality := none,
     programs := none }]

/-- C9 witness: limit 2 on a three-school listing keeps the first two. -/
theorem claim_C9_witness :
    apply_limit (some 2) c9Schools = c9Schools.take ((2 : Int).toNat) ∧
    (apply_limit (some 2) c9Schools).length = min ((2 : Int).toNat) c9Schools.length :=
  (claim_C9 2 c9Schools).1 (by decide)

/-- C10: given that phases 1–2 succeed, phase 3 demands an "id" and a "name"
field of every processed school record: if every record carries both, the run
completes with no uncaught lookup error (missing "location", "municipality" or
"programs" fields are tolerated via defaults and impose no condition); if some
processed record lacks "id" or "name", the run aborts with an uncaught
`KeyError`. -/
theorem claim_C10 : ∀ (cfg : Config) (env : Env) (l : List SchoolRec),
    (ResRobotClient.lookup_stop env cfg.origin_name).isSome →
    env.schoolsResp = some l →
    ((∀ sch ∈ apply_limit cfg.school_limit l, sch.id.isSome ∧ sch.name.isSome) →
      (export_schools cfg env).error = none) ∧
    ((∃ sch ∈ apply_limit cfg.school_limit l, sch.id = none ∨ sch.name = none) →
      ∃ k, (export_schools cfg env).error = some (PipeError.keyError k)) := by
  intro cfg env l ho hs
  obtain ⟨stop, ho2⟩ := Option.isSome_iff_exists.mp ho
  rw [export_schools_run cfg env stop l ho2 hs]
  dsimp only
  constructor
  · exact fun hids => runSchools_ok env stop.extId _ _ hids
  · exact fun hex => runSchools_err env stop.extId _ _ hex

/-- School record for the C10 witness: it has an id but no name. -/
def c10Sch : SchoolRec :=
  { id := some "s1", name := none, location := none, municipality := none,
    programs := none }

/-- Environment for the C10 witness: phases 1–2 succeed, the single listed
school record lacks the "name" key. -/
def c10Env : Env :=
  { lookupResp := fun _ =>
      some [some { name := some "Stockholm City", extId := some "740001617" }]
    tripResp := fun _ _ => none
    schoolsResp := some [c10Sch]
    pageResp := fun _ _ _ => none }

/-- Configuration for the C10 witness. -/
def c10Cfg : Config :=
  { resrobot_api_key := "k", origin_name := "City", output_file := "o.csv",
    school_limit := none }

/-- C10 witness: a record without "name" aborts the run with a `KeyError`. -/
theorem claim_C10_witness :
    ∃ k, (export_schools c10Cfg c10Env).error = some (PipeError.keyError k) :=
  (claim_C10 c10Cfg c10Env [c10Sch] (by decide) rfl).2 ⟨c10Sch, by decide, Or.inr rfl⟩
